import Mathlib

/-!
Shallow embedding of `main.py` of the stubble-burning hotspot detection
service (Sentinel-2 triple-check burn-scar pipeline).

The pipeline composes remote Earth-Engine raster operations.  The remote
service is modelled by an environment `EEnv` of abstract query functions
(collection sizes per region and date window, median composites, the MODIS
land-cover band, the sampler's candidate pixels, the GAUL district lookup).
All local decision logic — severity thresholds, date-window arithmetic,
the triple-check mask composition, year clamping, the empty-subset guard,
input-mode dispatch, response aggregation and CSV export — is translated
directly from the source.  Index values are modelled as exact rationals.
Dates are modelled as integer day numbers; `ee.Date.advance(n, 'day')`
becomes integer addition and the calendar-year accessor is part of the
environment.
-/

namespace BurnDetect

/-- Configuration constant `LATEST_VALID_LANDCOVER_YEAR = 2023` (main.py line 18). -/
def LATEST_VALID_LANDCOVER_YEAR : Int := 2023

/-- `ee.Date.advance(days, 'day')`, with dates as integer day numbers. -/
def advance (date : Int) (days : Int) : Int := date + days

/-- The pre-fire date window computed at lines 120-121:
`(start.advance(-60,'day'), start.advance(-15,'day'))`. -/
def pre_fire_window (post_fire_start : Int) : Int × Int :=
  (advance post_fire_start (-60), advance post_fire_start (-15))

/-- The post-fire date window (lines 118-119): the request's start and end dates. -/
def post_fire_window (start_date end_date : Int) : Int × Int :=
  (start_date, end_date)

/-- A median Sentinel-2 composite: per-pixel reflectances of the three bands
the pipeline reads (B4 red, B8 near-infrared, B12 shortwave-infrared). -/
structure S2Composite (Pix : Type) where
  B4 : Pix → ℚ
  B8 : Pix → ℚ
  B12 : Pix → ℚ

/-- Abstract Earth-Engine environment.  `Pix` is the pixel type, `Region`
the geometry type.
* `collection_size roi d0 d1` — size of the S2 collection filtered to the
  region, <40% cloud, and the date window `[d0, d1)` (lines 126-134);
* `median_composite roi d0 d1` — the cloud-masked median composite of that
  window (lines 141-142);
* `year_of d` — `ee.Date#get('year')` (line 157);
* `landcover_lc1 y` — the `LC_Type1` band of the first MODIS MCD12Q1 image
  of year `y`, `none` when the filtered collection is empty (lines 70-74);
* `sample_pts roi` — the up-to-20000 candidate pixels the sampler draws in
  the region at scale 20 (lines 172-174); masked-out pixels among them are
  dropped (`dropNulls=True`), modelled by filtering with the final mask;
* `gaul s d` — the FAO/GAUL level-2 lookup: the geometry of the features
  with `ADM1_NAME = s` and `ADM2_NAME = d`, `none` when the filter is
  empty (lines 49-62). -/
structure EEnv (Pix Region : Type) where
  collection_size : Region → Int → Int → Nat
  median_composite : Region → Int → Int → S2Composite Pix
  year_of : Int → Int
  landcover_lc1 : Int → Option (Pix → Int)
  sample_pts : Region → List Pix
  lat : Pix → ℚ
  lon : Pix → ℚ
  gaul : String → String → Option Region

/-- `get_agricultural_mask` (lines 67-79): select the year's land-cover
image; `None` when the collection is empty; otherwise the self-masked
`LC_Type1 == 12 or LC_Type1 == 14` cropland mask. -/
def get_agricultural_mask {Pix Region : Type} (env : EEnv Pix Region) (year : Int) :
    Option (Pix → Bool) :=
  match env.landcover_lc1 year with
  | none => none
  | some lc => some (fun p => decide (lc p = 12) || decide (lc p = 14))

/-- `ee.Image.normalizedDifference([a, b]) = (a - b) / (a + b)` per pixel. -/
def normalizedDifference (a b : ℚ) : ℚ := (a - b) / (a + b)

/-- `calculate_bai` (lines 89-93): `1.0 / ((0.1 - RED)**2 + (0.06 - NIR)**2)`. -/
def calculate_bai (red nir : ℚ) : ℚ :=
  1 / ((0.1 - red) ^ 2 + (0.06 - nir) ^ 2)

/-- Python's `round(x, ndigits)` on exact rationals (ties differ from
Python's float round-half-even, but no value in this development sits on a
tie). -/
def round_py (x : ℚ) (ndigits : Nat) : ℚ :=
  (round (x * 10 ^ ndigits) : ℚ) / 10 ^ ndigits

/-- `get_burn_severity` (lines 95-108), translated clause by clause. -/
def get_burn_severity (dnbr_value : Option ℚ) : String :=
  match dnbr_value with
  | none => "Unknown"
  | some v =>
    if v ≥ 0.66 then "Very High Severity"
    else if v ≥ 0.44 then "High Severity"
    else if v ≥ 0.27 then "Moderate Severity"
    else if v ≥ 0.10 then "Low Severity"
    else "Unburned or Regrowth"

/-- The documented 5-level severity set (spec §3 and lines 99-108). -/
def severity_levels : List String :=
  ["Very High Severity", "High Severity", "Moderate Severity", "Low Severity",
   "Unburned or Regrowth"]

/-- Line 158: `agri_mask_year = min(analysis_year, LATEST_VALID_LANDCOVER_YEAR)`. -/
def agri_mask_year (analysis_year : Int) : Int :=
  min analysis_year LATEST_VALID_LANDCOVER_YEAR

/-- The pre-fire collection count checked at line 133: the archive filtered
to the pre-fire window. -/
def pipeline_pre_count {Pix Region : Type} (env : EEnv Pix Region) (roi : Region)
    (start_date : Int) : Nat :=
  env.collection_size roi (pre_fire_window start_date).1 (pre_fire_window start_date).2

/-- The post-fire collection count checked at line 134. -/
def pipeline_post_count {Pix Region : Type} (env : EEnv Pix Region) (roi : Region)
    (start_date end_date : Int) : Nat :=
  env.collection_size roi (post_fire_window start_date end_date).1
    (post_fire_window start_date end_date).2

/-- The cloud-masked median pre-fire composite (line 141). -/
def pipeline_pre_composite {Pix Region : Type} (env : EEnv Pix Region) (roi : Region)
    (start_date : Int) : S2Composite Pix :=
  env.median_composite roi (pre_fire_window start_date).1 (pre_fire_window start_date).2

/-- The cloud-masked median post-fire composite (line 142). -/
def pipeline_post_composite {Pix Region : Type} (env : EEnv Pix Region) (roi : Region)
    (start_date end_date : Int) : S2Composite Pix :=
  env.median_composite roi (post_fire_window start_date end_date).1
    (post_fire_window start_date end_date).2

/-- The dNBR raster (lines 144-145): pre NBR minus post NBR, each a
normalized difference of B8 and B12. -/
def pipeline_dnbr {Pix Region : Type} (env : EEnv Pix Region) (roi : Region)
    (start_date end_date : Int) (p : Pix) : ℚ :=
  normalizedDifference ((pipeline_pre_composite env roi start_date).B8 p)
      ((pipeline_pre_composite env roi start_date).B12 p)
    - normalizedDifference ((pipeline_post_composite env roi start_date end_date).B8 p)
      ((pipeline_post_composite env roi start_date end_date).B12 p)

/-- The dNDVI raster (lines 146-147): pre NDVI minus post NDVI, each a
normalized difference of B8 and B4. -/
def pipeline_dndvi {Pix Region : Type} (env : EEnv Pix Region) (roi : Region)
    (start_date end_date : Int) (p : Pix) : ℚ :=
  normalizedDifference ((pipeline_pre_composite env roi start_date).B8 p)
      ((pipeline_pre_composite env roi start_date).B4 p)
    - normalizedDifference ((pipeline_post_composite env roi start_date end_date).B8 p)
      ((pipeline_post_composite env roi start_date end_date).B4 p)

/-- The BAI raster (line 148): `calculate_bai` on the post-fire composite only. -/
def pipeline_bai {Pix Region : Type} (env : EEnv Pix Region) (roi : Region)
    (start_date end_date : Int) (p : Pix) : ℚ :=
  calculate_bai ((pipeline_post_composite env roi start_date end_date).B4 p)
    ((pipeline_post_composite env roi start_date end_date).B8 p)

/-- Line 155: `burn_mask = dnbr.gt(0.10).And(bai.gt(89)).And(dndvi.gt(0.2))`. -/
def burn_mask_fn {Pix : Type} (dnbr bai dndvi : Pix → ℚ) (p : Pix) : Bool :=
  decide (dnbr p > 0.10) && decide (bai p > 89) && decide (dndvi p > 0.2)

/-- Lines 162-167: the final mask is the spectral burn mask alone when the
agricultural mask is unavailable, otherwise their intersection. -/
def final_mask_fn {Pix : Type} (burn : Pix → Bool) (agri : Option (Pix → Bool)) :
    Pix → Bool :=
  match agri with
  | none => burn
  | some m => fun p => burn p && m p

/-- Lines 157-160: the agricultural mask the pipeline requests — the mask
for the clamped analysis year. -/
def pipeline_agri_mask {Pix Region : Type} (env : EEnv Pix Region)
    (analysis_year : Int) : Option (Pix → Bool) :=
  get_agricultural_mask env (agri_mask_year analysis_year)

/-- One detection record as built at lines 185-193. -/
structure Hotspot where
  id : Nat
  latitude : ℚ
  longitude : ℚ
  dnbr : ℚ
  bai : ℚ
  dndvi : ℚ
  severity : String
deriving DecidableEq, Repr

/-- `extract_burn_scars_s2` (lines 111-203).  The early return on an empty
pre- or post-fire subset (lines 137-139), the triple-check mask with the
agricultural intersection or its degraded spectral-only mode (lines
150-167), sampling of the masked analysis image (lines 169-177, modelled as
filtering the sampler's candidate pixels by the final mask), and the
per-feature record construction with 1-based ids, rounded indices and the
severity derived from the unrounded dNBR (lines 179-194). -/
def extract_burn_scars_s2 {Pix Region : Type} (env : EEnv Pix Region)
    (roi_geometry : Region) (start_date end_date : Int) : List Hotspot :=
  if pipeline_pre_count env roi_geometry start_date = 0
      ∨ pipeline_post_count env roi_geometry start_date end_date = 0 then
    []
  else
    let dnbr := pipeline_dnbr env roi_geometry start_date end_date
    let bai := pipeline_bai env roi_geometry start_date end_date
    let dndvi := pipeline_dndvi env roi_geometry start_date end_date
    let burn_mask := burn_mask_fn dnbr bai dndvi
    let agri_mask := pipeline_agri_mask env (env.year_of start_date)
    let final_mask := final_mask_fn burn_mask agri_mask
    let samples := (env.sample_pts roi_geometry).filter final_mask
    samples.enum.map (fun ip =>
      { id := ip.1 + 1
        latitude := env.lat ip.2
        longitude := env.lon ip.2
        dnbr := round_py (dnbr ip.2) 3
        bai := round_py (bai ip.2) 2
        dndvi := round_py (dndvi ip.2) 3
        severity := get_burn_severity (some (dnbr ip.2)) })

/-- `FireDetectionRequest` (lines 29-34); dates as integer day numbers. -/
structure FireDetectionRequest (Region : Type) where
  start_date : Int
  end_date : Int
  state : Option String := none
  district : Option String := none
  roi : Option Region := none

/-- Python truthiness of an `Optional[str]`: `None` and `""` are falsy. -/
def truthy : Option String → Bool
  | none => false
  | some s => !s.isEmpty

/-- `str(HTTPException(code, detail))` = `"{code}: {detail}"` (Starlette). -/
def http_exception_str (status_code : Nat) (detail : String) : String :=
  toString status_code ++ ": " ++ detail

/-- The two response shapes `run_fire_detection` can return (lines 242-249
and line 252): the success dict with count, area, max dNBR, the detections
and the boundary for display, or the caught-exception dict whose `status`
is the `'Error: {e}'` string (that dict also carries `fire_hotspots: 0`
and an empty feature collection). -/
inductive RunResult (Region : Type) where
  | success (fire_hotspots : Nat) (fire_area_hectares : ℚ) (max_dnbr : ℚ)
      (hotspots : List Hotspot) (boundary : Option Region)
  | error (status : String)
deriving DecidableEq

/-- Whether a result is the success shape. -/
def RunResult.is_success {Region : Type} : RunResult Region → Bool
  | .success _ _ _ _ _ => true
  | .error _ => false

/-- Python's `max(l, default=dflt)`: the default only applies to the empty
list; otherwise the genuine maximum of the elements. -/
def py_max (l : List ℚ) (dflt : ℚ) : ℚ :=
  match l with
  | [] => dflt
  | x :: xs => xs.foldl max x

/-- The successful tail of `run_fire_detection` (lines 229-249) once an ROI
geometry is resolved: run the extraction and assemble the response dict
with `fire_hotspots = len(hotspots)`,
`fire_area_hectares = round(len(hotspots) * 0.04, 2)`,
`max_dnbr = max([h['dnbr'] ...], default=0.0)`. -/
def detection_success {Pix Region : Type} (env : EEnv Pix Region) (roi : Region)
    (start_date end_date : Int) : RunResult Region :=
  let hotspots := extract_burn_scars_s2 env roi start_date end_date
  RunResult.success hotspots.length
    (round_py ((hotspots.length : ℚ) * 0.04) 2)
    (py_max (hotspots.map Hotspot.dnbr) 0)
    hotspots
    (some roi)

/-- `run_fire_detection` (lines 205-252).  The ROI branch is checked first;
otherwise a truthy (state, district) pair is resolved through GAUL, with
the `HTTPException(404, "District not found")` of line 222 and the
`HTTPException(400, ...)` of line 227 both caught by the broad `except` of
lines 250-252 and returned as `'Error: {e}'` status dicts. -/
def run_fire_detection {Pix Region : Type} (env : EEnv Pix Region)
    (req : FireDetectionRequest Region) : RunResult Region :=
  match req.roi with
  | some roi_geometry => detection_success env roi_geometry req.start_date req.end_date
  | none =>
    if truthy req.state && truthy req.district then
      match env.gaul (req.state.getD "") (req.district.getD "") with
      | none => RunResult.error ("Error: " ++ http_exception_str 404 "District not found")
      | some roi_geometry => detection_success env roi_geometry req.start_date req.end_date
    else
      RunResult.error ("Error: "
        ++ http_exception_str 400 "Either a state/district or a custom ROI must be provided.")

/-- The `current_fire_data` cache shape (line 43). -/
structure FireData where
  hotspots : List Hotspot
  state : String
  district : String
  date_range : String

/-- An HTTP error as raised by `HTTPException(status_code, detail)`. -/
structure HTTPError where
  status_code : Nat
  detail : String
deriving DecidableEq

/-- One CSV cell value. -/
inductive Cell where
  | nat (n : Nat)
  | rat (q : ℚ)
  | str (s : String)
deriving DecidableEq

/-- The header row written at line 616. -/
def csv_header : List String :=
  ["ID", "Latitude", "Longitude", "Severity", "dNBR", "BAI", "dNDVI"]

/-- One data row (line 618): the spot's values in the column order
`['id', 'latitude', 'longitude', 'severity', 'dnbr', 'bai', 'dndvi']`. -/
def csv_row (h : Hotspot) : List Cell :=
  [Cell.nat h.id, Cell.rat h.latitude, Cell.rat h.longitude, Cell.str h.severity,
   Cell.rat h.dnbr, Cell.rat h.bai, Cell.rat h.dndvi]

/-- `export_csv_api` (lines 611-622): 404 when the cached hotspot list is
empty, otherwise the header row followed by one row per cached detection. -/
def export_csv_api (data : FireData) : Except HTTPError (List String × List (List Cell)) :=
  if data.hotspots.isEmpty then
    Except.error ⟨404, "No data available to export"⟩
  else
    Except.ok (csv_header, data.hotspots.map csv_row)

/-! Concrete fixtures used to instantiate the theorems below.  The pixel
and region types are `Unit`: one pixel, one region. -/

/-- An environment whose archive is empty everywhere and whose district
lookup always comes back empty. -/
def envEmpty : EEnv Unit Unit where
  collection_size := fun _ _ _ => 0
  median_composite := fun _ _ _ => ⟨fun _ => 0, fun _ => 0, fun _ => 0⟩
  year_of := fun _ => 2024
  landcover_lc1 := fun _ => none
  sample_pts := fun _ => []
  lat := fun _ => 0
  lon := fun _ => 0
  gaul := fun _ _ => none

/-- An environment with one image on each side, one sampled pixel whose
composites put it over all three thresholds (dNBR 7/6, BAI 10000/41,
dNDVI 56/55), and cropland land cover. -/
def envOne : EEnv Unit Unit where
  collection_size := fun _ _ _ => 1
  median_composite := fun _ d0 _ =>
    if d0 < 0 then ⟨fun _ => 1/20, fun _ => 1/2, fun _ => 1/10⟩
    else ⟨fun _ => 3/20, fun _ => 1/10, fun _ => 3/10⟩
  year_of := fun _ => 2024
  landcover_lc1 := fun _ => some (fun _ => 12)
  sample_pts := fun _ => [()]
  lat := fun _ => 0
  lon := fun _ => 0
  gaul := fun _ _ => some ()

/-- Like `envOne` but with no land-cover data for any year, so the
agricultural mask is unavailable. -/
def envNoAgri : EEnv Unit Unit where
  collection_size := fun _ _ _ => 1
  median_composite := fun _ d0 _ =>
    if d0 < 0 then ⟨fun _ => 1/20, fun _ => 1/2, fun _ => 1/10⟩
    else ⟨fun _ => 3/20, fun _ => 1/10, fun _ => 3/10⟩
  year_of := fun _ => 2024
  landcover_lc1 := fun _ => none
  sample_pts := fun _ => [()]
  lat := fun _ => 0
  lon := fun _ => 0
  gaul := fun _ _ => some ()

/-- A request with BOTH a custom ROI and a (state, district) pair set. -/
def reqBoth : FireDetectionRequest Unit :=
  { start_date := 0, end_date := 10, state := some "Punjab",
    district := some "Sangrur", roi := some () }

/-- A request with neither a custom ROI nor a (state, district) pair. -/
def reqNeither : FireDetectionRequest Unit :=
  { start_date := 0, end_date := 10 }

/-- A lookup-mode request for a district absent from the boundary dataset. -/
def reqLookup : FireDetectionRequest Unit :=
  { start_date := 0, end_date := 10, state := some "Punjab", district := some "Nowhere" }

/-- An ROI-mode request. -/
def reqRoi : FireDetectionRequest Unit :=
  { start_date := 0, end_date := 10, roi := some () }

/-- The single detection `envOne` produces on `reqRoi`'s date range. -/
def hot1 : Hotspot :=
  { id := 1, latitude := 0, longitude := 0, dnbr := 1167/1000, bai := 2439/10,
    dndvi := 509/500, severity := "Very High Severity" }

/-- A cache holding one detection. -/
def dataEx : FireData :=
  { hotspots := [hot1], state := "Punjab", district := "Sangrur",
    date_range := "0 to 10" }

/-! Helper lemmas. -/

/-- The seed is below a `foldl max`. -/
lemma le_foldl_max (xs : List ℚ) (a : ℚ) : a ≤ xs.foldl max a := by
  induction xs generalizing a with
  | nil => simp
  | cons x xs ih => exact le_trans (le_max_left a x) (ih (max a x))

/-- Every member is below a `foldl max`. -/
lemma mem_le_foldl_max (xs : List ℚ) (a y : ℚ) (h : y ∈ xs) : y ≤ xs.foldl max a := by
  induction xs generalizing a with
  | nil => cases h
  | cons x xs ih =>
    rcases List.mem_cons.mp h with rfl | h2
    · exact le_trans (le_max_right a y) (le_foldl_max xs (max a y))
    · exact ih (max a x) h2

/-- A `foldl max` is the seed or one of the elements. -/
lemma foldl_max_mem (xs : List ℚ) (a : ℚ) :
    xs.foldl max a = a ∨ xs.foldl max a ∈ xs := by
  induction xs generalizing a with
  | nil => left; rfl
  | cons x xs ih =>
    rcases ih (max a x) with h | h
    · rcases max_choice a x with h1 | h1
      · left; rw [List.foldl_cons, h, h1]
      · right; rw [List.foldl_cons, h, h1]; exact List.mem_cons_self x xs
    · right; exact List.mem_cons_of_mem x h

/-- Every element of a nonempty list is at most its Python `max`. -/
lemma py_max_le (l : List ℚ) (dflt : ℚ) : ∀ x ∈ l, x ≤ py_max l dflt := by
  intro x hx
  match l with
  | [] => cases hx
  | y :: ys =>
    rcases List.mem_cons.mp hx with rfl | h2
    · exact le_foldl_max ys x
    · exact mem_le_foldl_max ys y x h2

/-- The Python `max` of a nonempty list is one of its elements. -/
lemma py_max_mem (l : List ℚ) (dflt : ℚ) (h : l ≠ []) : py_max l dflt ∈ l := by
  match l with
  | [] => exact absurd rfl h
  | y :: ys =>
    rcases foldl_max_mem ys y with h1 | h1
    · rw [py_max, h1]; exact List.mem_cons_self y ys
    · exact List.mem_cons_of_mem y h1

/-- `round(n * 0.04, 2)` is exactly `n * 0.04`: the product is an integer
number of hundredths. -/
lemma round_py_area (L : Nat) : round_py ((L : ℚ) * 0.04) 2 = (L : ℚ) * 0.04 := by
  unfold round_py
  have h : ((L : ℚ) * 0.04) * 10 ^ 2 = ((4 * L : ℕ) : ℚ) := by
    push_cast
    ring_nf
  rw [h, round_natCast]
  push_cast
  ring_nf

/-- Rounding zero gives zero. -/
lemma round_py_zero (n : Nat) : round_py 0 n = 0 := by
  simp [round_py]

/-- Evaluation of the pipeline on `envOne`: one detection, dNBR 7/6 rounded
to 1.167, BAI 10000/41 rounded to 243.9, dNDVI 56/55 rounded to 1.018. -/
lemma extract_envOne_eval : extract_burn_scars_s2 envOne () 0 10 = [hot1] := by
  rw [extract_burn_scars_s2, if_neg]
  · simp only [pipeline_dnbr, pipeline_bai, pipeline_dndvi, pipeline_pre_composite,
      pipeline_post_composite, pipeline_agri_mask, get_agricultural_mask, agri_mask_year,
      pre_fire_window, post_fire_window, advance, normalizedDifference, calculate_bai,
      burn_mask_fn, final_mask_fn, envOne, LATEST_VALID_LANDCOVER_YEAR]
    norm_num [List.filter, hot1, round_py, round_eq, get_burn_severity]
  · simp [pipeline_pre_count, pipeline_post_count, envOne]

/-- Aggregates of the success response assembled by `detection_success`. -/
lemma detection_success_aggregates {Pix Region : Type} (env : EEnv Pix Region)
    (roi : Region) (sd ed : Int) {n : Nat} {area mx : ℚ} {hs : List Hotspot}
    {b : Option Region}
    (h : detection_success env roi sd ed = RunResult.success n area mx hs b) :
    n = hs.length ∧ area = (n : ℚ) * 0.04 ∧ (hs = [] → mx = 0) ∧
    (∀ x ∈ hs, x.dnbr ≤ mx) ∧ (hs ≠ [] → mx ∈ hs.map Hotspot.dnbr) := by
  simp only [detection_success, RunResult.success.injEq] at h
  obtain ⟨h1, h2, h3, h4, h5⟩ := h
  subst h1 h2 h3 h4 h5
  refine ⟨rfl, round_py_area _, ?_, ?_, ?_⟩
  · intro he
    rw [he]
    rfl
  · intro x hx
    exact py_max_le _ _ _ (List.mem_map_of_mem Hotspot.dnbr hx)
  · intro hne
    exact py_max_mem _ _ (fun hmap => hne (List.map_eq_nil_iff.mp hmap))

/-! Claim theorems. -/

/-- C1: for every non-None dNBR input, severity classification returns one
of the five tiers by the fixed thresholds — dNBR ≥ 0.66 gives Very High,
[0.44, 0.66) High, [0.27, 0.44) Moderate, [0.10, 0.27) Low, < 0.10
Unburned or Regrowth — and each boundary value (0.66, 0.44, 0.27, 0.10) is
classified into the higher tier. -/
theorem severity_tier_classification (v : ℚ) :
    ((0.66 : ℚ) ≤ v → get_burn_severity (some v) = "Very High Severity") ∧
    ((0.44 : ℚ) ≤ v → v < 0.66 → get_burn_severity (some v) = "High Severity") ∧
    ((0.27 : ℚ) ≤ v → v < 0.44 → get_burn_severity (some v) = "Moderate Severity") ∧
    ((0.10 : ℚ) ≤ v → v < 0.27 → get_burn_severity (some v) = "Low Severity") ∧
    (v < (0.10 : ℚ) → get_burn_severity (some v) = "Unburned or Regrowth") ∧
    severity_levels.contains (get_burn_severity (some v)) = true ∧
    get_burn_severity (some 0.66) = "Very High Severity" ∧
    get_burn_severity (some 0.44) = "High Severity" ∧
    get_burn_severity (some 0.27) = "Moderate Severity" ∧
    get_burn_severity (some 0.10) = "Low Severity" := by
  refine ⟨?_, ?_, ?_, ?_, ?_, ?_, by norm_num [get_burn_severity],
    by norm_num [get_burn_severity], by norm_num [get_burn_severity],
    by norm_num [get_burn_severity]⟩
  · intro h
    simp only [get_burn_severity]
    split_ifs <;> rfl
  · intro h1 h2
    simp only [get_burn_severity]
    split_ifs <;> first | rfl | linarith
  · intro h1 h2
    simp only [get_burn_severity]
    split_ifs <;> first | rfl | linarith
  · intro h1 h2
    simp only [get_burn_severity]
    split_ifs <;> first | rfl | linarith
  · intro h
    simp only [get_burn_severity]
    split_ifs <;> first | rfl | linarith
  · simp only [get_burn_severity]
    split_ifs <;> decide

/-- C1 witness: concrete classifications with each hypothesis discharged. -/
theorem severity_tier_classification_witness :
    get_burn_severity (some 0.7) = "Very High Severity" ∧
    get_burn_severity (some 0.5) = "High Severity" :=
  ⟨(severity_tier_classification 0.7).1 (by norm_num),
   (severity_tier_classification 0.5).2.1 (by norm_num) (by norm_num)⟩

/-- C2: the final burn mask holds at a pixel iff dNBR > 0.10, BAI > 89 and
dNDVI > 0.2 all hold together with the agricultural criterion; when the
agricultural mask is unavailable the final mask is the spectral-only one
and the pipeline still proceeds, producing one detection per sampled pixel
passing the spectral criteria. -/
theorem burn_mask_invariant {Pix Region : Type} (env : EEnv Pix Region)
    (dnbr bai dndvi : Pix → ℚ) (m : Pix → Bool) (p : Pix) (roi : Region) (s e : Int) :
    (final_mask_fn (burn_mask_fn dnbr bai dndvi) (some m) p = true ↔
      ((0.10 : ℚ) < dnbr p ∧ (89 : ℚ) < bai p ∧ (0.2 : ℚ) < dndvi p ∧ m p = true)) ∧
    (final_mask_fn (burn_mask_fn dnbr bai dndvi) none p = true ↔
      ((0.10 : ℚ) < dnbr p ∧ (89 : ℚ) < bai p ∧ (0.2 : ℚ) < dndvi p)) ∧
    (pipeline_agri_mask env (env.year_of s) = none →
      pipeline_pre_count env roi s ≠ 0 →
      pipeline_post_count env roi s e ≠ 0 →
      (extract_burn_scars_s2 env roi s e).length =
        ((env.sample_pts roi).filter
          (burn_mask_fn (pipeline_dnbr env roi s e) (pipeline_bai env roi s e)
            (pipeline_dndvi env roi s e))).length) := by
  refine ⟨?_, ?_, ?_⟩
  · simp [final_mask_fn, burn_mask_fn, and_assoc]
  · simp [final_mask_fn, burn_mask_fn, and_assoc]
  · intro hagri h1 h2
    rw [extract_burn_scars_s2, if_neg (by tauto)]
    simp only [hagri, final_mask_fn]
    simp [List.length_map, List.enum_length]

/-- C2 witness: a pixel passing all criteria under a present agricultural
mask, and the degraded-mode pipeline on an environment with no land-cover
data. -/
theorem burn_mask_invariant_witness :
    final_mask_fn (burn_mask_fn (fun _ : Unit => 1) (fun _ => 90) (fun _ => 1))
      (some (fun _ => true)) () = true ∧
    (extract_burn_scars_s2 envNoAgri () 0 10).length =
      ((envNoAgri.sample_pts ()).filter
        (burn_mask_fn (pipeline_dnbr envNoAgri () 0 10) (pipeline_bai envNoAgri () 0 10)
          (pipeline_dndvi envNoAgri () 0 10))).length := by
  constructor
  · exact (burn_mask_invariant envNoAgri (fun _ : Unit => 1) (fun _ => 90) (fun _ => 1)
      (fun _ => true) () () 0 10).1.mpr ⟨by norm_num, by norm_num, by norm_num, rfl⟩
  · exact (burn_mask_invariant envNoAgri (pipeline_dnbr envNoAgri () 0 10)
      (pipeline_bai envNoAgri () 0 10) (pipeline_dndvi envNoAgri () 0 10)
      (fun _ => true) () () 0 10).2.2 rfl (by decide) (by decide)

/-- C3 counterexample: a request with BOTH a custom ROI and a truthy
(state, district) pair is not rejected as a validation error — the run
proceeds in ROI mode and returns a success-shaped response. -/
theorem both_set_request_not_rejected :
    reqBoth.roi.isSome = true ∧ truthy reqBoth.state = true ∧
    truthy reqBoth.district = true ∧
    run_fire_detection envEmpty reqBoth = RunResult.success 0 0 0 [] (some ()) := by
  refine ⟨rfl, by decide, by decide, ?_⟩
  show detection_success envEmpty () 0 10 = _
  have hext : extract_burn_scars_s2 envEmpty () 0 10 = [] := by
    rw [extract_burn_scars_s2,
      if_pos (show pipeline_pre_count envEmpty () 0 = 0
          ∨ pipeline_post_count envEmpty () 0 10 = 0 from Or.inl rfl)]
  simp only [detection_success, hext]
  norm_num [round_py, py_max]

/-- C3 amended: a request with neither the ROI nor a truthy (state,
district) pair is rejected with the 400 validation error (surfaced as an
error-status response); a request with the ROI set proceeds in ROI mode
regardless of (state, district) — the ROI takes precedence over the pair,
so both-set is not an error. -/
theorem input_mode_validation {Pix Region : Type} (env : EEnv Pix Region)
    (req : FireDetectionRequest Region) :
    (∀ r, req.roi = some r →
      run_fire_detection env req = detection_success env r req.start_date req.end_date) ∧
    (req.roi = none → (truthy req.state && truthy req.district) = false →
      run_fire_detection env req = RunResult.error ("Error: "
        ++ http_exception_str 400
          "Either a state/district or a custom ROI must be provided.")) := by
  constructor
  · intro r hr
    simp [run_fire_detection, hr]
  · intro h0 h1
    simp [run_fire_detection, h0, h1]

/-- C3 witness: the neither-set request is rejected with the 400 error. -/
theorem input_mode_validation_witness :
    run_fire_detection envEmpty reqNeither = RunResult.error ("Error: "
      ++ http_exception_str 400
        "Either a state/district or a custom ROI must be provided.") :=
  (input_mode_validation envEmpty reqNeither).2 rfl rfl

/-- C4: a lookup-mode request whose (state, district) pair matches no
feature of the boundary dataset fails: the response is the error shape
carrying the not-found condition ("Error: 404: District not found"), not a
success-shaped response. -/
theorem district_not_found_surfaced {Pix Region : Type} (env : EEnv Pix Region)
    (req : FireDetectionRequest Region) (s d : String) :
    req.roi = none → req.state = some s → req.district = some d →
    s.isEmpty = false → d.isEmpty = false → env.gaul s d = none →
    run_fire_detection env req
        = RunResult.error ("Error: " ++ http_exception_str 404 "District not found") ∧
    (run_fire_detection env req).is_success = false := by
  intro h0 hs hd hse hde hg
  have hrun : run_fire_detection env req
      = RunResult.error ("Error: " ++ http_exception_str 404 "District not found") := by
    simp [run_fire_detection, h0, hs, hd, truthy, hse, hde, hg]
  exact ⟨hrun, by rw [hrun]; rfl⟩

/-- C4 witness: the concrete lookup request on the empty boundary dataset. -/
theorem district_not_found_surfaced_witness :
    run_fire_detection envEmpty reqLookup
      = RunResult.error ("Error: " ++ http_exception_str 404 "District not found") :=
  (district_not_found_surfaced envEmpty reqLookup "Punjab" "Nowhere"
    rfl rfl rfl rfl rfl rfl).1

/-- C5: when the pre-fire or the post-fire image subset is empty, the
pipeline returns the empty detection set, and an ROI-mode run over such
data returns a success-shaped zero-detection response — no error is raised
to the caller. -/
theorem empty_subset_zero_detections {Pix Region : Type} (env : EEnv Pix Region)
    (roi : Region) (req : FireDetectionRequest Region) :
    (pipeline_pre_count env roi req.start_date = 0
      ∨ pipeline_post_count env roi req.start_date req.end_date = 0) →
    extract_burn_scars_s2 env roi req.start_date req.end_date = [] ∧
    (req.roi = some roi →
      run_fire_detection env req = RunResult.success 0 0 0 [] (some roi)) := by
  intro h
  have hext : extract_burn_scars_s2 env roi req.start_date req.end_date = [] := by
    rw [extract_burn_scars_s2, if_pos h]
  refine ⟨hext, ?_⟩
  intro hr
  simp only [run_fire_detection, hr, detection_success, hext]
  norm_num [round_py, py_max]

/-- C5 witness: the empty-archive environment yields the empty detection
set and the zero-detection success response. -/
theorem empty_subset_zero_detections_witness :
    extract_burn_scars_s2 envEmpty () 0 10 = [] ∧
    run_fire_detection envEmpty reqRoi = RunResult.success 0 0 0 [] (some ()) := by
  have h := empty_subset_zero_detections envEmpty () reqRoi (Or.inl rfl)
  exact ⟨h.1, h.2 rfl⟩

/-- C6: the post-fire window is [start, end] and the pre-fire window is
[start − 60 days, start − 15 days]; the archive subsets the pipeline
counts are filtered to exactly these windows. -/
theorem date_window_computation {Pix Region : Type} (env : EEnv Pix Region)
    (roi : Region) (s e : Int) :
    pre_fire_window s = (s - 60, s - 15) ∧
    post_fire_window s e = (s, e) ∧
    pipeline_pre_count env roi s = env.collection_size roi (s - 60) (s - 15) ∧
    pipeline_post_count env roi s e = env.collection_size roi s e := by
  have h1 : advance s (-60) = s - 60 := by unfold advance; ring
  have h2 : advance s (-15) = s - 15 := by unfold advance; ring
  refine ⟨?_, rfl, ?_, rfl⟩
  · rw [pre_fire_window, h1, h2]
  · rw [pipeline_pre_count, pre_fire_window]
    simp only [h1, h2]

/-- C7: the land-cover year the pipeline queries is the minimum of the
analysis year and the configured latest valid year: years beyond it clamp
to the latest valid year, earlier years are used as-is. -/
theorem agri_mask_year_clamped {Pix Region : Type} (env : EEnv Pix Region) (Y : Int) :
    agri_mask_year Y = min Y LATEST_VALID_LANDCOVER_YEAR ∧
    (Y ≤ LATEST_VALID_LANDCOVER_YEAR →
      pipeline_agri_mask env Y = get_agricultural_mask env Y) ∧
    (LATEST_VALID_LANDCOVER_YEAR < Y →
      pipeline_agri_mask env Y = get_agricultural_mask env LATEST_VALID_LANDCOVER_YEAR) := by
  refine ⟨rfl, ?_, ?_⟩
  · intro h
    rw [pipeline_agri_mask, agri_mask_year, min_eq_left h]
  · intro h
    rw [pipeline_agri_mask, agri_mask_year, min_eq_right h.le]

/-- C7 witness: the requested year 2025 clamps to 2023; 2020 is used as-is. -/
theorem agri_mask_year_clamped_witness :
    pipeline_agri_mask envEmpty 2025 = get_agricultural_mask envEmpty 2023 ∧
    pipeline_agri_mask envEmpty 2020 = get_agricultural_mask envEmpty 2020 := by
  constructor
  · exact (agri_mask_year_clamped envEmpty 2025).2.2
      (by norm_num [LATEST_VALID_LANDCOVER_YEAR])
  · exact (agri_mask_year_clamped envEmpty 2020).2.1
      (by norm_num [LATEST_VALID_LANDCOVER_YEAR])

/-- C8: every success-shaped detection response satisfies:
fire_area_hectares equals detection count × 0.04 exactly, and max_dnbr is
an upper bound of the detections' dnbr values attained by one of them,
with 0 when the detection set is empty. -/
theorem response_aggregates {Pix Region : Type} (env : EEnv Pix Region)
    (req : FireDetectionRequest Region) (n : Nat) (area mx : ℚ)
    (hs : List Hotspot) (b : Option Region)
    (hrun : run_fire_detection env req = RunResult.success n area mx hs b) :
    n = hs.length ∧ area = (n : ℚ) * 0.04 ∧ (hs = [] → mx = 0) ∧
    (∀ x ∈ hs, x.dnbr ≤ mx) ∧ (hs ≠ [] → mx ∈ hs.map Hotspot.dnbr) := by
  unfold run_fire_detection at hrun
  cases hroi : req.roi with
  | some r =>
    rw [hroi] at hrun
    exact detection_success_aggregates env r req.start_date req.end_date hrun
  | none =>
    rw [hroi] at hrun
    by_cases ht : (truthy req.state && truthy req.district) = true
    · rw [if_pos ht] at hrun
      cases hg : env.gaul (req.state.getD "") (req.district.getD "") with
      | none =>
        rw [hg] at hrun
        exact RunResult.noConfusion hrun
      | some r =>
        rw [hg] at hrun
        exact detection_success_aggregates env r req.start_date req.end_date hrun
    · rw [if_neg ht] at hrun
      exact RunResult.noConfusion hrun

/-- C8 witness: a concrete run with one detection — count 1, area exactly
1 × 0.04 = 1/25, max dNBR 1.167 attained by the detection. -/
theorem response_aggregates_witness :
    (1 : ℚ)/25 = ((1 : ℕ) : ℚ) * 0.04 ∧
    ((1167 : ℚ)/1000) ∈ [hot1].map Hotspot.dnbr := by
  have hrun : run_fire_detection envOne reqRoi
      = RunResult.success 1 (1/25) (1167/1000) [hot1] (some ()) := by
    show detection_success envOne () 0 10 = _
    simp only [detection_success, extract_envOne_eval]
    norm_num [round_py, round_eq, py_max, hot1]
  have h := response_aggregates envOne reqRoi 1 (1/25) (1167/1000) [hot1] (some ()) hrun
  exact ⟨h.2.1, h.2.2.2.2 (by simp)⟩

/-- C9: export with an empty cached result set fails with the 404 not-found
condition; with a non-empty cache it returns the header and exactly one
row per cached detection, each row carrying that detection's id, latitude,
longitude, severity, dnbr, bai and dndvi in order. -/
theorem export_csv_behavior (d : FireData) :
    (d.hotspots = [] →
      export_csv_api d = Except.error ⟨404, "No data available to export"⟩) ∧
    (d.hotspots ≠ [] →
      export_csv_api d = Except.ok (csv_header, d.hotspots.map csv_row)) ∧
    (∀ h : Hotspot, csv_row h = [Cell.nat h.id, Cell.rat h.latitude,
      Cell.rat h.longitude, Cell.str h.severity, Cell.rat h.dnbr, Cell.rat h.bai,
      Cell.rat h.dndvi]) ∧
    (d.hotspots.map csv_row).length = d.hotspots.length := by
  refine ⟨?_, ?_, fun h => rfl, List.length_map _ _⟩
  · intro h
    simp [export_csv_api, h]
  · intro h
    have hne : d.hotspots.isEmpty = false := by
      cases hd : d.hotspots with
      | nil => exact absurd hd h
      | cons a as => rfl
    simp [export_csv_api, hne]

/-- C9 witness: export of a one-detection cache. -/
theorem export_csv_behavior_witness :
    export_csv_api dataEx = Except.ok (csv_header, [csv_row hot1]) :=
  (export_csv_behavior dataEx).2.1 (by simp [dataEx])

/-- C10: the None input maps to "Unknown", a sixth value outside the
documented 5-level severity set; every non-None input maps into the
5-level set. -/
theorem severity_unknown_value :
    get_burn_severity none = "Unknown" ∧
    severity_levels.contains "Unknown" = false ∧
    severity_levels.length = 5 ∧
    ∀ v : ℚ, severity_levels.contains (get_burn_severity (some v)) = true := by
  refine ⟨rfl, by decide, rfl, ?_⟩
  intro v
  simp only [get_burn_severity]
  split_ifs <;> decide

end BurnDetect
